import Mathlib

/-!
Shallow embedding of `daikin.go` (package daikin, yob/go-daikin).

Conventions of the embedding:
* Go `int` / `int32` values are carried as Lean `Int`; the `int32` conversion
  applied by casts such as `Humidity(val)` is made explicit by `toInt32`
  (two's-complement reduction modulo `2^32`).
* Fallible Go code (`decode`, `populate`, `parseResponse`, ...) returns
  `Except String _` or a `_ × Option String` pair (final state, error);
  a Go panic (a crash, not a returned error) is modelled as `Option.none`
  of an outer `Option` layer.
* `url.Values` is an unordered map in Go; `ControlInfo.urlValues` is embedded
  as the map's contents, an association list with distinct keys whose order
  carries no meaning. Every ordered observation of it goes through
  `urlValuesEncode`, the model of `url.Values.Encode`, which sorts by key.
* External library calls (the HTTP client, `encoding/csv`) are not repository
  code: their results are taken as explicit inputs of the model functions.
-/

namespace Daikin

/-- Decidable equality for `Except` (used to evaluate decoder results). -/
def exceptDecEq {ε α : Type} [DecidableEq ε] [DecidableEq α] :
    (x y : Except ε α) → Decidable (x = y)
  | .error a, .error b =>
    if h : a = b then .isTrue (by rw [h]) else .isFalse (by simp [h])
  | .error _, .ok _ => .isFalse (by simp)
  | .ok _, .error _ => .isFalse (by simp)
  | .ok a, .ok b =>
    if h : a = b then .isTrue (by rw [h]) else .isFalse (by simp [h])

instance {ε α : Type} [DecidableEq ε] [DecidableEq α] : DecidableEq (Except ε α) :=
  exceptDecEq

/-- Model of Go `strings.Split` with a one-character separator (the package
only splits on "/" and "="), structurally recursive over the character list
of the string. `Split("", sep)` is `[""]`, as in Go. -/
def splitList (sep : Char) : List Char → List (List Char)
  | [] => [[]]
  | c :: r =>
    let rest := splitList sep r
    if c = sep then [] :: rest
    else
      match rest with
      | [] => [[c]]
      | h :: t => (c :: h) :: t

def stringSplit (s : String) (sep : Char) : List String :=
  (splitList sep s.data).map String.mk

/-- Join parts with "=" between them: reassembles the tail of
`strings.SplitN(rec, "=", 2)` from a full split. -/
def joinEq : List String → String
  | [] => ""
  | [x] => x
  | x :: r => x ++ "=" ++ joinEq r

/-- Model of Go `strconv.Atoi` (= `ParseInt(s, 10, 64)`): an optional leading
`+` or `-` sign followed by one or more ASCII digits, rejecting anything else,
the empty string, and values outside the signed 64-bit range. Returns `none`
exactly when Go returns a non-nil error. -/
def decDigitsVal : List Char → Option Nat
  | [] => none
  | cs =>
    cs.foldl
      (fun acc c =>
        match acc with
        | none => none
        | some n => if c.isDigit then some (n * 10 + (c.toNat - 48)) else none)
      (some 0)

def atoi (s : String) : Option Int :=
  let p : Int × List Char :=
    match s.data with
    | '+' :: r => (1, r)
    | '-' :: r => (-1, r)
    | r => (1, r)
  match decDigitsVal p.2 with
  | none => none
  | some n =>
    let v : Int := p.1 * (n : Int)
    if v < -(2 ^ 63) ∨ 2 ^ 63 - 1 < v then none else some v

/-- Two's-complement reduction of an integer into the `int32` range, the effect
of Go conversions such as `Humidity(val)` where `val` is an `int`. -/
def toInt32 (v : Int) : Int :=
  (v + 2 ^ 31) % 2 ^ 32 - 2 ^ 31

/-- Go type `Power int` (constants `PowerOff = 0`, `PowerOn = 1`). -/
abbrev Power := Int

def PowerOff : Power := 0
def PowerOn : Power := 1

/-- Go type `Mode int`. -/
abbrev Mode := Int

def ModeDehumidify : Mode := 2
def ModeCool : Mode := 3
def ModeHeat : Mode := 4
def ModeFan : Mode := 6
def ModeAuto : Mode := 0
def ModeAuto1 : Mode := 1
def ModeAuto7 : Mode := 7

/-- Go type `Fan string` (the value is its own wire token). -/
abbrev Fan := String

def FanAuto : Fan := "A"
def FanSilent : Fan := "B"
def Fan1 : Fan := "3"
def Fan2 : Fan := "4"
def Fan3 : Fan := "5"
def Fan4 : Fan := "6"
def Fan5 : Fan := "7"

/-- Go type `FanDir int`. -/
abbrev FanDir := Int

def FanDirStopped : FanDir := 0
def FanDirVertical : FanDir := 1
def FanDirHorizontal : FanDir := 2
def FanDirBoth : FanDir := 3

/-- Go type `Temperature float64`. The claims only exercise decimal values with
one fractional digit, all exactly representable in `float64`, so the carrier is
`ℚ` (hexadecimal/`Inf`/`NaN` spellings of `ParseFloat` are out of scope). -/
abbrev Temperature := ℚ

/-- Go type `Humidity int32`. -/
abbrev Humidity := Int

/-- Go type `WattHours int32`. -/
abbrev WattHours := Int

/-- Go type `Minutes int32`. -/
abbrev Minutes := Int

/-- `(*Power).decode`: switch on the literal tokens "0" / "1". -/
def powerDecode (s : String) : Except String Power :=
  if s = "0" then .ok PowerOff
  else if s = "1" then .ok PowerOn
  else .error ("unknown pwr value: " ++ s)

/-- The wire token `(*Power).setUrlValues` emits: `strconv.Itoa(int(*p))`. -/
def powerEncode (p : Power) : String := toString p

/-- `(*Mode).decode`: switch on the literal tokens "2","3","4","6","0","1","7". -/
def modeDecode (s : String) : Except String Mode :=
  if s = "2" then .ok ModeDehumidify
  else if s = "3" then .ok ModeCool
  else if s = "4" then .ok ModeHeat
  else if s = "6" then .ok ModeFan
  else if s = "0" then .ok ModeAuto
  else if s = "1" then .ok ModeAuto1
  else if s = "7" then .ok ModeAuto7
  else .error ("unknown mode value: " ++ s)

/-- The wire token `(*Mode).setUrlValues` emits: `strconv.Itoa(int(*m))`. -/
def modeEncode (m : Mode) : String := toString m

/-- `(*Mode).String` via `modeMap`; unmatched values print as unknown. -/
def modeString (m : Mode) : String :=
  if m = ModeDehumidify then "Dehumidify"
  else if m = ModeCool then "Cool"
  else if m = ModeHeat then "Heat"
  else if m = ModeFan then "Fan"
  else if m = ModeAuto ∨ m = ModeAuto1 ∨ m = ModeAuto7 then "Auto"
  else "Unknown Mode [" ++ toString m ++ "]"

/-- `(*Fan).decode`: switch on the literal tokens "A","B","3","4","5","6","7". -/
def fanDecode (s : String) : Except String Fan :=
  if s = "A" then .ok FanAuto
  else if s = "B" then .ok FanSilent
  else if s = "3" then .ok Fan1
  else if s = "4" then .ok Fan2
  else if s = "5" then .ok Fan3
  else if s = "6" then .ok Fan4
  else if s = "7" then .ok Fan5
  else .error ("unknown pwr value: " ++ s)

/-- The wire token `(*Fan).setUrlValues` emits: `string(*f)`. -/
def fanEncode (f : Fan) : String := f

/-- Membership test of Go's `fanDirMap` (keys 0,1,2,3). -/
def fanDirKnown (v : Int) : Prop := v = 0 ∨ v = 1 ∨ v = 2 ∨ v = 3

instance (v : Int) : Decidable (fanDirKnown v) := by
  unfold fanDirKnown; infer_instance

/-- `(*FanDir).decode`: `strconv.Atoi`, then a membership check in `fanDirMap`. -/
def fanDirDecode (s : String) : Except String FanDir :=
  match atoi s with
  | none => .error ("invalid f_dir value: " ++ s)
  | some v =>
    if fanDirKnown v then .ok v
    else .error ("unknown f_dir value: " ++ s)

/-- The wire token `(*FanDir).setUrlValues` emits: `strconv.Itoa(int(*f))`. -/
def fanDirEncode (f : FanDir) : String := toString f

/-- Model of the decimal fragment of Go `strconv.ParseFloat`: optional sign,
digits with at most one dot (at least one digit overall), optional decimal
exponent. Returns the exact rational value. -/
def parseMantissa : List Char → Bool → Nat → Nat → Option (Nat × Nat)
  | [], seen, n, f => if seen then some (n, f) else none
  | '.' :: r, seen, n, f =>
    if r.any (fun c => c = '.') then none
    else
      match decDigitsVal r with
      | none => if r.isEmpty ∧ seen then some (n, 0) else none
      | some m => if seen ∨ ¬ r.isEmpty then some (n * 10 ^ r.length + m, r.length) else none
  | c :: r, seen, n, f =>
    if c.isDigit then parseMantissa r true (n * 10 + (c.toNat - 48)) f
    else none

def parseFloat (s : String) : Option ℚ :=
  let p : Int × List Char :=
    match s.data with
    | '+' :: r => (1, r)
    | '-' :: r => (-1, r)
    | r => (1, r)
  let core : List Char := p.2.takeWhile (fun c => c ≠ 'e' ∧ c ≠ 'E')
  let expPart : List Char := p.2.drop (core.length)
  match parseMantissa core false 0 0 with
  | none => none
  | some (n, f) =>
    let base : ℚ := (p.1 * n : Int) / (10 ^ f : Nat)
    match expPart with
    | [] => some base
    | _ :: es =>
      let q : Int × List Char :=
        match es with
        | '+' :: r => (1, r)
        | '-' :: r => (-1, r)
        | r => (1, r)
      match decDigitsVal q.2 with
      | none => none
      | some e => some (base * (10 : ℚ) ^ (q.1 * (e : Int)))

/-- `(*Temperature).decode`: `strconv.ParseFloat(v, 64)`. -/
def temperatureDecode (v : String) : Except String Temperature :=
  match parseFloat v with
  | none => .error ("error parsing s_temp=" ++ v)
  | some q => .ok q

/-- `(*Temperature).String`: `strconv.FormatFloat(float64(*t), 'f', 1, 64)`,
one digit after the decimal point (rounding of values not representable with
one decimal digit is outside the claims' scope). -/
def formatTenths (n : Int) : String :=
  toString (n / 10) ++ "." ++ toString (n % 10)

/-- Nearest number of tenths of a nonnegative rational `q`, computed on the
numerator and denominator so that it is kernel-computable:
`⌊q * 10 + 1 / 2⌋ = (20 * q.num + q.den).fdiv (2 * q.den)`. -/
def roundTenths (q : ℚ) : Int :=
  Int.fdiv (20 * q.num + (q.den : Int)) (2 * (q.den : Int))

def temperatureString (q : Temperature) : String :=
  if q < 0 then "-" ++ formatTenths (roundTenths (-q))
  else formatTenths (roundTenths q)

/-- `(*Humidity).String`: `strconv.Itoa(int(*h))`. -/
def humidityString (h : Humidity) : String := toString h

/-- `(*Humidity).decode`: the sentinel "-" is rewritten to "-1", then
`strconv.Atoi`; the parsed `int` is cast to `int32`. -/
def humidityDecode (s : String) : Except String Humidity :=
  let v := if s = "-" then "-1" else s
  match atoi v with
  | none => .error ("error parsing s_hum=" ++ v)
  | some n => .ok (toInt32 n)

/-- `(*WattHours).decode`: same shape as `Humidity.decode`. -/
def wattHoursDecode (s : String) : Except String WattHours :=
  let v := if s = "-" then "-1" else s
  match atoi v with
  | none => .error ("error parsing watt hours=" ++ v)
  | some n => .ok (toInt32 n)

/-- `(*Minutes).decode`: same shape as `Humidity.decode`. -/
def minutesDecode (s : String) : Except String Minutes :=
  let v := if s = "-" then "-1" else s
  match atoi v with
  | none => .error ("error parsing minutes=" ++ v)
  | some n => .ok (toInt32 n)

/-- Go struct `ControlInfo`. Field names follow the source (lower-cased where
the capitalised name would clash with its own type). -/
structure ControlInfo where
  power : Power
  mode : Mode
  fan : Fan
  fanDir : FanDir
  temperature : Temperature
  humidity : Humidity
  deriving DecidableEq, Repr

/-- The Go zero value `&ControlInfo{}` (ints 0, string "", float 0). -/
def zeroControlInfo : ControlInfo := ⟨0, 0, "", 0, 0, 0⟩

/-- Go struct `SensorInfo`. -/
structure SensorInfo where
  homeTemperature : Temperature
  outsideTemperature : Temperature
  humidity : Humidity
  deriving DecidableEq, Repr

def zeroSensorInfo : SensorInfo := ⟨0, 0, 0⟩

/-- Go struct `WeekPower`. -/
structure WeekPower where
  todayRuntime : Minutes
  todayWattHours : WattHours
  yesterdayWattHours : WattHours
  threeDaysAgoWattHours : WattHours
  fourDaysAgoWattHours : WattHours
  fiveDaysAgoWattHours : WattHours
  sixDaysAgoWattHours : WattHours
  sevenDaysAgoWattHours : WattHours
  deriving DecidableEq, Repr

def zeroWeekPower : WeekPower := ⟨0, 0, 0, 0, 0, 0, 0, 0⟩

/-- Literal `returnOk = "OK"`. -/
def returnOk : String := "OK"

/-- One iteration of the `range values` loop body of `(*ControlInfo).populate`:
the `switch k` together with the decode of `v`. On a decode error the target
field is unchanged (every Go decoder assigns only after its error check). -/
def ControlInfo.populateEntry (c : ControlInfo) (k v : String) : ControlInfo × Option String :=
  if k = "pow" then
    match powerDecode v with
    | .ok x => ({ c with power := x }, none)
    | .error e => (c, some e)
  else if k = "mode" then
    match modeDecode v with
    | .ok x => ({ c with mode := x }, none)
    | .error e => (c, some e)
  else if k = "stemp" then
    match temperatureDecode v with
    | .ok x => ({ c with temperature := x }, none)
    | .error e => (c, some e)
  else if k = "shum" then
    match humidityDecode v with
    | .ok x => ({ c with humidity := x }, none)
    | .error e => (c, some e)
  else if k = "f_rate" then
    match fanDecode v with
    | .ok x => ({ c with fan := x }, none)
    | .error e => (c, some e)
  else if k = "f_dir" then
    match fanDirDecode v with
    | .ok x => ({ c with fanDir := x }, none)
    | .error e => (c, some e)
  else if k = "ret" then
    (c, if v = returnOk then none else some ("device returned error ret=" ++ v))
  else
    (c, none)

/-- One iteration of the loop body of `(*SensorInfo).populate`. -/
def SensorInfo.populateEntry (s : SensorInfo) (k v : String) : SensorInfo × Option String :=
  if k = "htemp" then
    match temperatureDecode v with
    | .ok x => ({ s with homeTemperature := x }, none)
    | .error e => (s, some e)
  else if k = "otemp" then
    match temperatureDecode v with
    | .ok x => ({ s with outsideTemperature := x }, none)
    | .error e => (s, some e)
  else if k = "hhum" then
    match humidityDecode v with
    | .ok x => ({ s with humidity := x }, none)
    | .error e => (s, some e)
  else if k = "ret" then
    (s, if v = returnOk then none else some ("device returned error ret=" ++ v))
  else
    (s, none)

/-- Effect of the Go statement `w.X.decode(elem)` whose error result is
discarded by `(*WeekPower).populate`: the field is updated only when the
element parses, and kept unchanged otherwise. -/
def decodeOrKeep (old : WattHours) (s : String) : WattHours :=
  match wattHoursDecode s with
  | .ok n => n
  | .error _ => old

/-- One iteration of the loop body of `(*WeekPower).populate`. The `datas`
case splits on "/", insists on exactly 7 elements, then decodes each element
into its field with the error return values dropped (as the Go code does). -/
def WeekPower.populateEntry (w : WeekPower) (k v : String) : WeekPower × Option String :=
  if k = "today_runtime" then
    match minutesDecode v with
    | .ok x => ({ w with todayRuntime := x }, none)
    | .error e => (w, some e)
  else if k = "datas" then
    match stringSplit v '/' with
    | [e0, e1, e2, e3, e4, e5, e6] =>
      ({ w with
          sevenDaysAgoWattHours := decodeOrKeep w.sevenDaysAgoWattHours e0
          sixDaysAgoWattHours := decodeOrKeep w.sixDaysAgoWattHours e1
          fiveDaysAgoWattHours := decodeOrKeep w.fiveDaysAgoWattHours e2
          fourDaysAgoWattHours := decodeOrKeep w.fourDaysAgoWattHours e3
          threeDaysAgoWattHours := decodeOrKeep w.threeDaysAgoWattHours e4
          yesterdayWattHours := decodeOrKeep w.yesterdayWattHours e5
          todayWattHours := decodeOrKeep w.todayWattHours e6 }, none)
    | elems =>
      (w, some ("expected 7 elements in week power data, got " ++ toString elems.length))
  else if k = "ret" then
    (w, if v = returnOk then none else some ("device returned error ret=" ++ v))
  else
    (w, none)

/-- The common `for k, v := range values { ...; if err != nil { return err } }`
loop shared by the three populate methods. The Go map is represented by an
association list; its order stands for the (arbitrary) map iteration order.
Returns the final record state together with the error, if any. -/
def populateLoop {α : Type} (entry : α → String → String → α × Option String) :
    α → List (String × String) → α × Option String
  | a, [] => (a, none)
  | a, (k, v) :: tl =>
    let r := entry a k v
    match r.2 with
    | some err => (r.1, some err)
    | none => populateLoop entry r.1 tl

/-- `(*ControlInfo).populate`. -/
def ControlInfo.populate (c : ControlInfo) (values : List (String × String)) :
    ControlInfo × Option String :=
  populateLoop ControlInfo.populateEntry c values

/-- `(*SensorInfo).populate`. -/
def SensorInfo.populate (s : SensorInfo) (values : List (String × String)) :
    SensorInfo × Option String :=
  populateLoop SensorInfo.populateEntry s values

/-- `(*WeekPower).populate`. -/
def WeekPower.populate (w : WeekPower) (values : List (String × String)) :
    WeekPower × Option String :=
  populateLoop WeekPower.populateEntry w values

/-- Contents of the `url.Values` map assembled by `(*ControlInfo).urlValues`
through its six `setUrlValues` calls (all keys distinct). The Go map is
unordered, so the order of this list carries no meaning: properties read it
through `List.lookup` or through `urlValuesEncode`, which sorts by key
exactly as `url.Values.Encode` does. -/
def ControlInfo.urlValues (c : ControlInfo) : List (String × String) :=
  [("pow", powerEncode c.power),
   ("mode", modeEncode c.mode),
   ("f_rate", fanEncode c.fan),
   ("f_dir", fanDirEncode c.fanDir),
   ("stemp", temperatureString c.temperature),
   ("shum", humidityString c.humidity)]

/-- Bytewise lexicographic string order of Go's `sort.Strings` (equal to
character order on the ASCII keys compared here), structurally recursive so
it is kernel-computable. -/
def charListLt : List Char → List Char → Bool
  | [], [] => false
  | [], _ :: _ => true
  | _ :: _, [] => false
  | a :: as, b :: bs =>
    if a < b then true
    else if b < a then false
    else charListLt as bs

def stringLt (s t : String) : Bool := charListLt s.data t.data

def insertSorted (kv : String × String) :
    List (String × String) → List (String × String)
  | [] => [kv]
  | x :: t => if stringLt x.1 kv.1 then x :: insertSorted kv t else kv :: x :: t

/-- Sort an association list by key ascending, as `url.Values.Encode` sorts
the map keys with `sort.Strings` (keys here are distinct, so stability is
irrelevant). -/
def sortByKey : List (String × String) → List (String × String)
  | [] => []
  | x :: t => insertSorted x (sortByKey t)

def hexDigitChar (n : Nat) : Char :=
  if n < 10 then Char.ofNat (48 + n) else Char.ofNat (55 + n)

/-- ASCII fragment of `url.QueryEscape` as applied by `Encode` to each key
and value: RFC 3986 unreserved characters pass through, space becomes "+",
any other ASCII character becomes %XX (multi-byte runes are out of scope:
every wire token this package emits is ASCII). -/
def queryEscapeChar (c : Char) : List Char :=
  if c.isAlphanum ∨ c = '-' ∨ c = '_' ∨ c = '.' ∨ c = '~' then [c]
  else if c = ' ' then ['+']
  else ['%', hexDigitChar (c.toNat / 16 % 16), hexDigitChar (c.toNat % 16)]

def queryEscape (s : String) : String :=
  String.mk (s.data.foldr (fun c acc => queryEscapeChar c ++ acc) [])

def joinAmp : List String → String
  | [] => ""
  | [x] => x
  | x :: r => x ++ "&" ++ joinAmp r

/-- Model of `url.Values.Encode`: keys sorted ascending, each entry emitted
as escape(key)=escape(value), joined with "&". This is the only place the
parameters become an ordered sequence. -/
def urlValuesEncode (l : List (String × String)) : String :=
  joinAmp ((sortByKey l).map (fun kv => queryEscape kv.1 ++ "=" ++ queryEscape kv.2))

def uriSetControlInfo : String := "/aircon/set_control_info"

/-- The request path `SetControlInfo` builds:
`fmt.Sprintf("%s?%s", uriSetControlInfo, qStr.Encode())`. -/
def setControlInfoQuery (c : ControlInfo) : String :=
  uriSetControlInfo ++ "?" ++ urlValuesEncode (ControlInfo.urlValues c)

/-- `strings.SplitN(rec, "=", 2)` followed by the unchecked accesses
`parts[0]`, `parts[1]`: when `rec` contains no "=", `SplitN` yields a single
part and `parts[1]` panics, modelled as `none`. -/
def splitEq (rec : String) : Option (String × String) :=
  match stringSplit rec '=' with
  | [] => none
  | [_] => none
  | a :: rest => some (a, joinEq rest)

/-- Go map insertion `values[k] = v`: overwrite the existing key or add it. -/
def upsert : List (String × String) → String → String → List (String × String)
  | [], k, v => [(k, v)]
  | (k0, v0) :: tl, k, v =>
    if k0 = k then (k, v) :: tl else (k0, v0) :: upsert tl k v

/-- The `for _, rec := range records[0]` loop of `parseResponse`:
`none` models the panic on a field without "=". -/
def buildValues : List String → List (String × String) → Option (List (String × String))
  | [], acc => some acc
  | rec :: tl, acc =>
    match splitEq rec with
    | none => none
    | some kv => buildValues tl (upsert acc kv.1 kv.2)

/-- `(*Daikin).parseResponse`, taking the result of `csv.ReadAll` on the
response body as input (`encoding/csv` is standard-library code, so its
result is an input of the model; its `.error` also covers a body read error).
The outer `Option` is `none` exactly when the Go code panics. -/
def parseResponse (csvResult : Except String (List (List String))) :
    Option (Except String (List (String × String))) :=
  match csvResult with
  | .error e => some (.error e)
  | .ok [row] =>
    match buildValues row [] with
    | none => none
    | some vals => some (.ok vals)
  | .ok rows =>
    some (.error ("Have " ++ toString rows.length ++ " rows of records, want just one"))

/-- The session struct `Daikin`, restricted to the three record fields the
claims concern (`Address`, `Token`, `Name` only feed the external HTTP call).
A Go nil pointer is `none`. -/
structure Daikin where
  controlInfo : Option ControlInfo
  sensorInfo : Option SensorInfo
  weekPower : Option WeekPower
  deriving DecidableEq, Repr

/-- Result of `(*Daikin).httpGet` as an input of the get models: `.error e`
is a transport or non-200 failure, `.ok csvResult` a 200 response whose body
was handed to `encoding/csv`. -/
abbrev HttpResult := Except String (Except String (List (List String)))

/-- `(*Daikin).GetControlInfo`: on HTTP success the session field is replaced
by a fresh zero record before parsing, then populated in place. The outer
`Option` is `none` when `parseResponse` panics. -/
def Daikin.getControlInfo (d : Daikin) (hres : HttpResult) :
    Option (Daikin × Option String) :=
  match hres with
  | .error e => some (d, some e)
  | .ok csvResult =>
    let d1 : Daikin := { d with controlInfo := some zeroControlInfo }
    match parseResponse csvResult with
    | none => none
    | some (.error e) => some (d1, some ("GetControlInfo: " ++ e))
    | some (.ok vals) =>
      let r := ControlInfo.populate zeroControlInfo vals
      some ({ d1 with controlInfo := some r.1 }, r.2)

/-- `(*Daikin).GetSensorInfo`, same shape as `getControlInfo`. -/
def Daikin.getSensorInfo (d : Daikin) (hres : HttpResult) :
    Option (Daikin × Option String) :=
  match hres with
  | .error e => some (d, some e)
  | .ok csvResult =>
    let d1 : Daikin := { d with sensorInfo := some zeroSensorInfo }
    match parseResponse csvResult with
    | none => none
    | some (.error e) => some (d1, some ("GetSensorInfo: " ++ e))
    | some (.ok vals) =>
      let r := SensorInfo.populate zeroSensorInfo vals
      some ({ d1 with sensorInfo := some r.1 }, r.2)

/-- `(*Daikin).GetWeekPower`, same shape as `getControlInfo`. -/
def Daikin.getWeekPower (d : Daikin) (hres : HttpResult) :
    Option (Daikin × Option String) :=
  match hres with
  | .error e => some (d, some e)
  | .ok csvResult =>
    let d1 : Daikin := { d with weekPower := some zeroWeekPower }
    match parseResponse csvResult with
    | none => none
    | some (.error e) => some (d1, some ("GetWeekPower: " ++ e))
    | some (.ok vals) =>
      let r := WeekPower.populate zeroWeekPower vals
      some ({ d1 with weekPower := some r.1 }, r.2)

/-- The response-checking tail of `(*Daikin).SetControlInfo` (after the HTTP
round trip): parse, then check `vals["ret"]` against "OK"; a missing map key
reads as "" in Go. `none` models a parse panic; `some none` is success. -/
def setControlInfoVerify (csvResult : Except String (List (List String))) :
    Option (Option String) :=
  match parseResponse csvResult with
  | none => none
  | some (.error e) => some (some e)
  | some (.ok vals) =>
    let v := (vals.lookup "ret").getD ""
    if v = "OK" then some none
    else some (some ("device returned error ret=" ++ v))

/-! ### Helper lemmas -/

/-- A populate loop fails whenever the record contains a `ret` entry whose
value is not "OK", provided the entry function errors on such an entry
(each populate's switch does). -/
lemma populateLoop_ret_fails {α : Type} (entry : α → String → String → α × Option String)
    (hentry : ∀ (a : α) (v : String), v ≠ returnOk → ((entry a "ret" v).2).isSome = true) :
    ∀ (vals : List (String × String)) (a : α) (v : String),
      ("ret", v) ∈ vals → v ≠ returnOk → ((populateLoop entry a vals).2).isSome = true := by
  intro vals
  induction vals with
  | nil => intro a v hm _; simp at hm
  | cons hd tl ih =>
    intro a v hm hv
    obtain ⟨k, val⟩ := hd
    rcases List.mem_cons.mp hm with heq | hmem
    · injection heq with hk hval
      subst hk
      subst hval
      have h1 := hentry a v hv
      cases he : (entry a "ret" v).2 with
      | none => rw [he] at h1; simp at h1
      | some err => simp [populateLoop, he]
    · cases he : (entry a k val).2 with
      | some err => simp [populateLoop, he]
      | none =>
        have h2 := ih (entry a k val).1 v hmem hv
        simpa [populateLoop, he] using h2

lemma controlEntry_ret (a : ControlInfo) (v : String) (hv : v ≠ returnOk) :
    ((ControlInfo.populateEntry a "ret" v).2).isSome = true := by
  simp [ControlInfo.populateEntry, hv]

lemma sensorEntry_ret (a : SensorInfo) (v : String) (hv : v ≠ returnOk) :
    ((SensorInfo.populateEntry a "ret" v).2).isSome = true := by
  simp [SensorInfo.populateEntry, hv]

lemma weekEntry_ret (a : WeekPower) (v : String) (hv : v ≠ returnOk) :
    ((WeekPower.populateEntry a "ret" v).2).isSome = true := by
  simp [WeekPower.populateEntry, hv]

/-- A record field without "=" anywhere in the row makes the field loop of
`parseResponse` panic (`none`), wherever it sits in the row. -/
lemma buildValues_none_of_bad (rec : String)
    (hbad : (stringSplit rec '=').length = 1) :
    ∀ (row : List String) (acc : List (String × String)),
      rec ∈ row → buildValues row acc = none := by
  intro row
  induction row with
  | nil => intro acc h; simp at h
  | cons hd tl ih =>
    intro acc hm
    rcases List.mem_cons.mp hm with heq | hmem
    · subst heq
      have hsn : splitEq rec = none := by
        unfold splitEq
        rcases hs : stringSplit rec '=' with _ | ⟨a, _ | ⟨b, t⟩⟩ <;> simp_all
      simp [buildValues, hsn]
    · cases hs : splitEq hd with
      | none => simp [buildValues, hs]
      | some kv =>
        simp only [buildValues, hs]
        exact ih _ hmem

/-! ### Claims -/

/-- C1 (counterexample): with a control record already on the session and an
HTTP-success response whose body has two CSV rows, `GetControlInfo` fails in
`parseResponse`, yet the session field has been replaced by the fresh zero
record — it is not left as it was before the call, refuting the claim. -/
theorem c1_counterexample :
    (Daikin.mk (some { zeroControlInfo with power := PowerOn }) none none).getControlInfo
        (.ok (.ok [["a=1"], ["b=2"]])) =
      some (Daikin.mk (some zeroControlInfo) none none,
        some "GetControlInfo: Have 2 rows of records, want just one") ∧
    some zeroControlInfo ≠ some { zeroControlInfo with power := PowerOn } := by
  decide

/-- C1 (amended): only an HTTP-level failure leaves the record field
untouched. Once the HTTP get succeeds the old record is discarded: the field
is set to a fresh zero record before parsing, so the resulting record field
and error are independent of the previous record; on a parse error the
retained record is exactly the zero record. -/
theorem c1_get_discards_previous_record :
    (∀ (d : Daikin) (e : String),
        d.getControlInfo (.error e) = some (d, some e) ∧
        d.getSensorInfo (.error e) = some (d, some e) ∧
        d.getWeekPower (.error e) = some (d, some e)) ∧
    (∀ (d d' : Daikin) (csvResult : Except String (List (List String))),
        (d.getControlInfo (.ok csvResult)).map (fun x => (x.1.controlInfo, x.2)) =
          (d'.getControlInfo (.ok csvResult)).map (fun x => (x.1.controlInfo, x.2)) ∧
        (d.getSensorInfo (.ok csvResult)).map (fun x => (x.1.sensorInfo, x.2)) =
          (d'.getSensorInfo (.ok csvResult)).map (fun x => (x.1.sensorInfo, x.2)) ∧
        (d.getWeekPower (.ok csvResult)).map (fun x => (x.1.weekPower, x.2)) =
          (d'.getWeekPower (.ok csvResult)).map (fun x => (x.1.weekPower, x.2))) ∧
    (∀ (d : Daikin) (csvResult : Except String (List (List String))) (e : String),
        parseResponse csvResult = some (.error e) →
        d.getControlInfo (.ok csvResult) =
          some ({ d with controlInfo := some zeroControlInfo },
            some ("GetControlInfo: " ++ e)) ∧
        d.getSensorInfo (.ok csvResult) =
          some ({ d with sensorInfo := some zeroSensorInfo },
            some ("GetSensorInfo: " ++ e)) ∧
        d.getWeekPower (.ok csvResult) =
          some ({ d with weekPower := some zeroWeekPower },
            some ("GetWeekPower: " ++ e))) := by
  refine ⟨fun d e => ⟨rfl, rfl, rfl⟩, fun d d' csvResult => ?_, fun d csvResult e h => ?_⟩
  · refine ⟨?_, ?_, ?_⟩ <;>
    · cases hp : parseResponse csvResult with
      | none => simp [Daikin.getControlInfo, Daikin.getSensorInfo, Daikin.getWeekPower, hp]
      | some r =>
        cases r with
        | error e => simp [Daikin.getControlInfo, Daikin.getSensorInfo, Daikin.getWeekPower, hp]
        | ok vals => simp [Daikin.getControlInfo, Daikin.getSensorInfo, Daikin.getWeekPower, hp]
  · exact ⟨by simp [Daikin.getControlInfo, h], by simp [Daikin.getSensorInfo, h],
      by simp [Daikin.getWeekPower, h]⟩

/-- C1 (witness): instantiates the parse-error conjunct on a concrete
two-row response. -/
theorem c1_get_discards_previous_record_witness :
    parseResponse (.ok [["a=1"], ["b=2"]]) =
      some (.error "Have 2 rows of records, want just one") ∧
    (Daikin.mk none none none).getControlInfo (.ok (.ok [["a=1"], ["b=2"]])) =
      some (Daikin.mk (some zeroControlInfo) none none,
        some ("GetControlInfo: " ++ "Have 2 rows of records, want just one")) :=
  ⟨by decide,
   (c1_get_discards_previous_record.2.2 (Daikin.mk none none none)
      (.ok [["a=1"], ["b=2"]]) "Have 2 rows of records, want just one" (by decide)).1⟩

/-- C2 (counterexample): on the spec's own example record, populate succeeds
and `todayWattHours` is 1100 — taken from the seventh `datas` element — while
the claim requires it to remain at its default 0 because no separate
today-key is present. -/
theorem c2_counterexample :
    WeekPower.populate zeroWeekPower
        [("ret", "OK"), ("today_runtime", "85"),
         ("datas", "5200/3800/5300/1800/2900/3900/1100")] =
      (⟨85, 1100, 3900, 2900, 1800, 5300, 3800, 5200⟩, none) ∧
    (1100 : Int) ≠ 0 := by
  decide

/-- C2 (amended): a `datas` value splitting into exactly 7 elements assigns
them ordered oldest first to the seven-days-ago through yesterday fields AND
to `todayWattHours`, which receives the seventh (most recent) element; there
is no separate key for today's watt-hours. Each field is only set when its
element decodes. A `datas` list with a number of elements other than 7 makes
populate fail. -/
theorem c2_week_power_datas :
    (∀ (w : WeekPower) (v e0 e1 e2 e3 e4 e5 e6 : String),
        stringSplit v '/' = [e0, e1, e2, e3, e4, e5, e6] →
        WeekPower.populate w [("datas", v)] =
          ({ w with
              sevenDaysAgoWattHours := decodeOrKeep w.sevenDaysAgoWattHours e0
              sixDaysAgoWattHours := decodeOrKeep w.sixDaysAgoWattHours e1
              fiveDaysAgoWattHours := decodeOrKeep w.fiveDaysAgoWattHours e2
              fourDaysAgoWattHours := decodeOrKeep w.fourDaysAgoWattHours e3
              threeDaysAgoWattHours := decodeOrKeep w.threeDaysAgoWattHours e4
              yesterdayWattHours := decodeOrKeep w.yesterdayWattHours e5
              todayWattHours := decodeOrKeep w.todayWattHours e6 }, none)) ∧
    (∀ (w : WeekPower) (v : String),
        (stringSplit v '/').length ≠ 7 →
        WeekPower.populate w [("datas", v)] =
          (w, some ("expected 7 elements in week power data, got " ++
            toString (stringSplit v '/').length))) := by
  constructor
  · intro w v e0 e1 e2 e3 e4 e5 e6 h
    simp [WeekPower.populate, populateLoop, WeekPower.populateEntry, h]
  · intro w v hlen
    rcases hsp : stringSplit v '/' with
      _ | ⟨a, _ | ⟨b, _ | ⟨c, _ | ⟨d, _ | ⟨e, _ | ⟨f, _ | ⟨g, _ | ⟨h8, t⟩⟩⟩⟩⟩⟩⟩⟩ <;>
      simp_all [WeekPower.populate, populateLoop, WeekPower.populateEntry]

/-- C2 (witness): instantiates both conjuncts, on the spec's 7-element
example and on a 2-element list. -/
theorem c2_week_power_datas_witness :
    stringSplit "5200/3800/5300/1800/2900/3900/1100" '/' =
      ["5200", "3800", "5300", "1800", "2900", "3900", "1100"] ∧
    WeekPower.populate zeroWeekPower
        [("datas", "5200/3800/5300/1800/2900/3900/1100")] =
      ({ zeroWeekPower with
          sevenDaysAgoWattHours := decodeOrKeep zeroWeekPower.sevenDaysAgoWattHours "5200"
          sixDaysAgoWattHours := decodeOrKeep zeroWeekPower.sixDaysAgoWattHours "3800"
          fiveDaysAgoWattHours := decodeOrKeep zeroWeekPower.fiveDaysAgoWattHours "5300"
          fourDaysAgoWattHours := decodeOrKeep zeroWeekPower.fourDaysAgoWattHours "1800"
          threeDaysAgoWattHours := decodeOrKeep zeroWeekPower.threeDaysAgoWattHours "2900"
          yesterdayWattHours := decodeOrKeep zeroWeekPower.yesterdayWattHours "3900"
          todayWattHours := decodeOrKeep zeroWeekPower.todayWattHours "1100" }, none) ∧
    (stringSplit "1/2" '/').length ≠ 7 ∧
    WeekPower.populate zeroWeekPower [("datas", "1/2")] =
      (zeroWeekPower, some ("expected 7 elements in week power data, got " ++
        toString (stringSplit "1/2" '/').length)) :=
  ⟨by decide,
   c2_week_power_datas.1 zeroWeekPower _ "5200" "3800" "5300" "1800" "2900" "3900" "1100"
     (by decide),
   by decide,
   c2_week_power_datas.2 zeroWeekPower "1/2" (by decide)⟩

/-- C3 (counterexample): a one-row body whose single field "foo" has no "=" —
the claim requires a returned malformed-response error, but the code panics
on the out-of-range index `parts[1]`, modelled as `none` (no value returned
at all). -/
theorem c3_counterexample :
    (stringSplit "foo" '=').length = 1 ∧ parseResponse (.ok [["foo"]]) = none := by
  decide

/-- C3 (amended): for every response body that tokenizes into exactly one CSV
row, a comma-separated field containing no "=" makes `parseResponse` panic
(index out of range on `parts[1]`), modelled as `none`, rather than return a
malformed-response error; fields containing "=" are split on the first "=". -/
theorem c3_no_equals_panics :
    ∀ (row : List String) (rec : String),
      rec ∈ row → (stringSplit rec '=').length = 1 →
      parseResponse (.ok [row]) = none := by
  intro row rec hm hbad
  have h := buildValues_none_of_bad rec hbad row [] hm
  simp [parseResponse, h]

/-- C3 (witness): the panic case at the concrete row `["foo"]`. -/
theorem c3_no_equals_panics_witness :
    "foo" ∈ ["foo"] ∧ (stringSplit "foo" '=').length = 1 ∧
    parseResponse (.ok [["foo"]]) = none :=
  ⟨by decide, by decide, c3_no_equals_panics ["foo"] "foo" (by decide) (by decide)⟩

/-- C4 (code bug, evaluated at the failing input): a non-numeric element "x"
inside a 7-element `datas` list does not make populate fail — the loop ends
with no error (`none`) and `sevenDaysAgoWattHours` silently keeps its default
0, because the error results of the seven element decodes are discarded; yet
decoding "x" by itself is an error. The claim (and the spec) require the
populate call to abort with that field's decode error. -/
theorem c4_datas_decode_error_ignored :
    WeekPower.populate zeroWeekPower
        [("ret", "OK"), ("datas", "x/3800/5300/1800/2900/3900/1100")] =
      ({ zeroWeekPower with
          todayWattHours := 1100
          yesterdayWattHours := 3900
          threeDaysAgoWattHours := 2900
          fourDaysAgoWattHours := 1800
          fiveDaysAgoWattHours := 5300
          sixDaysAgoWattHours := 3800
          sevenDaysAgoWattHours := 0 }, none) ∧
    wattHoursDecode "x" = .error "error parsing watt hours=x" := by
  decide

/-- C5 (counterexample): the parameter sequence the program makes observable
— `qStr.Encode()` in `SetControlInfo` — is sorted alphabetically by key, so
the example record {Power=On, Mode=Cool, Fan=Auto, FanDir=Both,
Temperature=23.0, Humidity=-1} encodes as
f_dir=3&f_rate=A&mode=3&pow=1&shum=-1&stemp=23.0, not as the claimed
sequence pow=1,mode=3,f_rate=A,f_dir=3,stemp=23.0,shum=-1 in the fixed order
pow, mode, f_rate, f_dir, stemp, shum. -/
theorem c5_counterexample :
    urlValuesEncode
        (ControlInfo.urlValues ⟨PowerOn, ModeCool, FanAuto, FanDirBoth, 23, -1⟩) =
      "f_dir=3&f_rate=A&mode=3&pow=1&shum=-1&stemp=23.0" ∧
    "f_dir=3&f_rate=A&mode=3&pow=1&shum=-1&stemp=23.0" ≠
      "pow=1&mode=3&f_rate=A&f_dir=3&stemp=23.0&shum=-1" := by
  decide

/-- C5 (amended): for every Control Settings record the builder produces
exactly the six parameters pow, mode, f_rate, f_dir, stemp and shum carrying
the record's wire tokens (pow=1, mode=3, f_rate=A, f_dir=3, stemp=23.0,
shum=-1 on the example record), but `url.Values` is an unordered map and the
parameter sequence observable on the wire — `url.Values.Encode` in
`SetControlInfo` — is sorted alphabetically by key: f_dir, f_rate, mode,
pow, shum, stemp. On the example record the built query is exactly
/aircon/set_control_info?f_dir=3&f_rate=A&mode=3&pow=1&shum=-1&stemp=23.0. -/
theorem c5_urlValues_params :
    (∀ c : ControlInfo,
        (sortByKey (ControlInfo.urlValues c)).map Prod.fst =
          ["f_dir", "f_rate", "mode", "pow", "shum", "stemp"]) ∧
    (∀ c : ControlInfo,
        (ControlInfo.urlValues c).lookup "pow" = some (powerEncode c.power) ∧
        (ControlInfo.urlValues c).lookup "mode" = some (modeEncode c.mode) ∧
        (ControlInfo.urlValues c).lookup "f_rate" = some (fanEncode c.fan) ∧
        (ControlInfo.urlValues c).lookup "f_dir" = some (fanDirEncode c.fanDir) ∧
        (ControlInfo.urlValues c).lookup "stemp" =
          some (temperatureString c.temperature) ∧
        (ControlInfo.urlValues c).lookup "shum" =
          some (humidityString c.humidity)) ∧
    setControlInfoQuery ⟨PowerOn, ModeCool, FanAuto, FanDirBoth, 23, -1⟩ =
      "/aircon/set_control_info?f_dir=3&f_rate=A&mode=3&pow=1&shum=-1&stemp=23.0" :=
  ⟨fun _ => rfl, fun _ => ⟨rfl, rfl, rfl, rfl, rfl, rfl⟩, by decide⟩

/-- C6: for every defined enumeration value of Power, Mode, Fan and FanDir,
decoding the wire token produced by encoding it yields the value again. -/
theorem c6_roundtrip :
    powerDecode (powerEncode PowerOff) = .ok PowerOff ∧
    powerDecode (powerEncode PowerOn) = .ok PowerOn ∧
    modeDecode (modeEncode ModeDehumidify) = .ok ModeDehumidify ∧
    modeDecode (modeEncode ModeCool) = .ok ModeCool ∧
    modeDecode (modeEncode ModeHeat) = .ok ModeHeat ∧
    modeDecode (modeEncode ModeFan) = .ok ModeFan ∧
    modeDecode (modeEncode ModeAuto) = .ok ModeAuto ∧
    modeDecode (modeEncode ModeAuto1) = .ok ModeAuto1 ∧
    modeDecode (modeEncode ModeAuto7) = .ok ModeAuto7 ∧
    fanDecode (fanEncode FanAuto) = .ok FanAuto ∧
    fanDecode (fanEncode FanSilent) = .ok FanSilent ∧
    fanDecode (fanEncode Fan1) = .ok Fan1 ∧
    fanDecode (fanEncode Fan2) = .ok Fan2 ∧
    fanDecode (fanEncode Fan3) = .ok Fan3 ∧
    fanDecode (fanEncode Fan4) = .ok Fan4 ∧
    fanDecode (fanEncode Fan5) = .ok Fan5 ∧
    fanDirDecode (fanDirEncode FanDirStopped) = .ok FanDirStopped ∧
    fanDirDecode (fanDirEncode FanDirVertical) = .ok FanDirVertical ∧
    fanDirDecode (fanDirEncode FanDirHorizontal) = .ok FanDirHorizontal ∧
    fanDirDecode (fanDirEncode FanDirBoth) = .ok FanDirBoth := by
  decide

/-- C7 (counterexample): with another malformed field present, an iteration
order that reaches it first makes populate fail with that field's decode
error, not with a device-reported error carrying the returned code —
refuting "fail with a device-reported error ... regardless of which other
fields are present". -/
theorem c7_counterexample :
    ControlInfo.populate zeroControlInfo [("mode", "zz"), ("ret", "NG")] =
      (zeroControlInfo, some "unknown mode value: zz") ∧
    "unknown mode value: zz" ≠ "device returned error ret=" ++ "NG" := by
  decide

/-- C7 (amended): a wire record containing a `ret` entry different from "OK"
always makes all three populates fail; the error is the device-reported one
carrying the literal returned code when no other failing field is iterated
first (shown here for the single-entry record), and the set-control
verification reports the device error with the literal code whenever parsing
succeeds and the `ret` key differs from "OK". -/
theorem c7_ret_not_ok_fails :
    (∀ (vals : List (String × String)) (c : ControlInfo) (v : String),
        ("ret", v) ∈ vals → v ≠ returnOk →
        ((ControlInfo.populate c vals).2).isSome = true) ∧
    (∀ (vals : List (String × String)) (s : SensorInfo) (v : String),
        ("ret", v) ∈ vals → v ≠ returnOk →
        ((SensorInfo.populate s vals).2).isSome = true) ∧
    (∀ (vals : List (String × String)) (w : WeekPower) (v : String),
        ("ret", v) ∈ vals → v ≠ returnOk →
        ((WeekPower.populate w vals).2).isSome = true) ∧
    (∀ (c : ControlInfo) (v : String), v ≠ returnOk →
        ControlInfo.populate c [("ret", v)] =
          (c, some ("device returned error ret=" ++ v))) ∧
    (∀ (csvResult : Except String (List (List String)))
        (vals : List (String × String)) (v : String),
        parseResponse csvResult = some (.ok vals) →
        vals.lookup "ret" = some v → v ≠ returnOk →
        setControlInfoVerify csvResult =
          some (some ("device returned error ret=" ++ v))) := by
  refine ⟨populateLoop_ret_fails _ controlEntry_ret,
    populateLoop_ret_fails _ sensorEntry_ret,
    populateLoop_ret_fails _ weekEntry_ret,
    fun c v hv => ?_, fun csvResult vals v h1 h2 h3 => ?_⟩
  · simp [ControlInfo.populate, populateLoop, ControlInfo.populateEntry, hv]
  · simp [setControlInfoVerify, h1, h2, returnOk] at h3 ⊢
    simp [h3]

/-- C7 (witness): the single-entry record `ret=PARAM NG` and the matching
one-row response, instantiating the populate conjunct and the set-control
verification conjunct. -/
theorem c7_ret_not_ok_fails_witness :
    (("ret", "PARAM NG") ∈ [("ret", "PARAM NG")] ∧ "PARAM NG" ≠ returnOk) ∧
    ((ControlInfo.populate zeroControlInfo [("ret", "PARAM NG")]).2).isSome = true ∧
    parseResponse (.ok [["ret=PARAM NG"]]) = some (.ok [("ret", "PARAM NG")]) ∧
    setControlInfoVerify (.ok [["ret=PARAM NG"]]) =
      some (some ("device returned error ret=" ++ "PARAM NG")) :=
  ⟨⟨by decide, by decide⟩,
   c7_ret_not_ok_fails.1 [("ret", "PARAM NG")] zeroControlInfo "PARAM NG"
     (by decide) (by decide),
   by decide,
   c7_ret_not_ok_fails.2.2.2.2 (.ok [["ret=PARAM NG"]]) [("ret", "PARAM NG")] "PARAM NG"
     (by decide) (by decide) (by decide)⟩

/-- C8 (counterexample): "4294967296" (= 2^32) is a well-formed decimal
integer token, yet `Humidity.decode` neither fails nor yields its integer
value: `strconv.Atoi` parses it as a 64-bit int and the `Humidity(val)` cast
wraps it to the int32 value 0. -/
theorem c8_counterexample :
    humidityDecode "4294967296" = .ok 0 ∧ (0 : Int) ≠ 4294967296 := by
  decide

/-- C8 (amended): Humidity, WattHours and Minutes decode the sentinel "-" to
-1 without error; any other token accepted by `strconv.Atoi` (optional sign,
digits, value within int64) decodes without error to its value reduced into
int32 by the Go cast — equal to its integer value whenever it fits in int32,
e.g. "50" to 50 — and decoding fails exactly on the remaining tokens. -/
theorem c8_counter_decode :
    (humidityDecode "-" = .ok (-1) ∧ wattHoursDecode "-" = .ok (-1) ∧
      minutesDecode "-" = .ok (-1)) ∧
    (∀ (s : String) (n : Int), s ≠ "-" → atoi s = some n →
        humidityDecode s = .ok (toInt32 n) ∧ wattHoursDecode s = .ok (toInt32 n) ∧
        minutesDecode s = .ok (toInt32 n)) ∧
    (∀ s : String, s ≠ "-" → atoi s = none →
        humidityDecode s = .error ("error parsing s_hum=" ++ s) ∧
        wattHoursDecode s = .error ("error parsing watt hours=" ++ s) ∧
        minutesDecode s = .error ("error parsing minutes=" ++ s)) ∧
    humidityDecode "50" = .ok 50 := by
  refine ⟨by decide, fun s n hs h => ?_, fun s hs h => ?_, by decide⟩
  · exact ⟨by simp [humidityDecode, hs, h], by simp [wattHoursDecode, hs, h],
      by simp [minutesDecode, hs, h]⟩
  · exact ⟨by simp [humidityDecode, hs, h], by simp [wattHoursDecode, hs, h],
      by simp [minutesDecode, hs, h]⟩

/-- C8 (witness): the in-range token "50". -/
theorem c8_counter_decode_witness :
    ("50" ≠ "-" ∧ atoi "50" = some 50) ∧ humidityDecode "50" = .ok (toInt32 50) :=
  ⟨⟨by decide, by decide⟩, (c8_counter_decode.2.1 "50" 50 (by decide) (by decide)).1⟩

/-- C9: the three Mode auto variants decode from "0", "1", "7" to three
distinct values, re-encode to their original distinct wire tokens, and all
display as the same string "Auto". -/
theorem c9_mode_auto_variants :
    modeDecode "0" = .ok ModeAuto ∧ modeDecode "1" = .ok ModeAuto1 ∧
    modeDecode "7" = .ok ModeAuto7 ∧
    ModeAuto ≠ ModeAuto1 ∧ ModeAuto ≠ ModeAuto7 ∧ ModeAuto1 ≠ ModeAuto7 ∧
    modeEncode ModeAuto = "0" ∧ modeEncode ModeAuto1 = "1" ∧
    modeEncode ModeAuto7 = "7" ∧
    modeString ModeAuto = "Auto" ∧ modeString ModeAuto1 = "Auto" ∧
    modeString ModeAuto7 = "Auto" := by
  decide

/-- C10: FanDir decode accepts every token `strconv.Atoi` parses to 0, 1, 2
or 3, so the non-canonical spellings "+3" and "03" decode to the same value
as "3" instead of failing. -/
theorem c10_fanDir_tolerant :
    (∀ (s : String) (v : Int), atoi s = some v → fanDirKnown v →
        fanDirDecode s = .ok v) ∧
    fanDirDecode "+3" = .ok FanDirBoth ∧ fanDirDecode "03" = .ok FanDirBoth ∧
    fanDirDecode "3" = .ok FanDirBoth := by
  refine ⟨fun s v h hk => ?_, by decide, by decide, by decide⟩
  unfold fanDirDecode
  rw [h]
  exact if_pos hk

/-- C10 (witness): the non-canonical token "+3". -/
theorem c10_fanDir_tolerant_witness :
    (atoi "+3" = some 3 ∧ fanDirKnown 3) ∧ fanDirDecode "+3" = .ok 3 :=
  ⟨⟨by decide, by decide⟩, c10_fanDir_tolerant.1 "+3" 3 (by decide) (by decide)⟩

end Daikin
